import Mathlib

/-!
Verification development for the dynamicrouting-encoding-io capsule.

This file gives a shallow embedding of the dropout-model orchestration in
process_session and of the parameter-override and session-selection logic in
main (src/code/run_capsule.py), together with theorems about it. Line numbers
in doc comments refer to src/code/run_capsule.py.
-/

set_option autoImplicit false

namespace RunCapsule

/-- A kernel descriptor from the resolved run params; only the function_call
identifier is read by the dropout logic (line 156). -/
structure Kernel where
  function_call : String
deriving DecidableEq

/-- First-match lookup in an association list, modelling Python dict indexing
and membership. -/
def lookupKey {β : Type} (k : String) : List (String × β) → Option β
  | [] => none
  | kv :: rest => if kv.1 = k then some kv.2 else lookupKey k rest

/-- The key list of an association list, modelling dict keys. -/
def kernelKeys (kernels : List (String × Kernel)) : List String :=
  kernels.map Prod.fst

/-- Modelled from the spec: the validated RunParams produced by the external
io_utils.RunParams resolution (spec section 3), restricted to the fields that
run_capsule.py reads: model_label, input_variables, drop_variables and the
derived kernels mapping. -/
structure RunParams where
  session_id : String
  model_label : String
  input_variables : List String
  drop_variables : List String
  kernels : List (String × Kernel)
deriving DecidableEq

/-- Modelled from the spec: the base configuration underlying RunParams
resolution (external io_utils code, not under src/): the full-model
input_variables and the derived kernels mapping before any drop. -/
structure ModelConfig where
  input_variables : List String
  kernels : List (String × Kernel)
deriving DecidableEq

/-- Modelled from the spec: after dropping features, the owning kernel of a
dropped feature no longer exists in the derived kernels mapping (spec 4.2
step 3: retain all weights whose owning kernel still exists after the drop),
where a drop candidate may name its kernel either by the semantic feature
name or by the kernel function_call identifier (spec 4.2, dual naming). -/
def postDropKernels (dropped : List String) : List (String × Kernel) → List (String × Kernel)
  | [] => []
  | kv :: rest =>
    if kv.1 ∈ dropped ∨ kv.2.function_call ∈ dropped then postDropKernels dropped rest
    else kv :: postDropKernels dropped rest

/-- Modelled from the spec: full-model resolution (lines 123-127): update with
the app params, set model_label to fullmodel, validate, and read out. -/
def resolveFull (session_id : String) (cfg : ModelConfig) : RunParams :=
  { session_id := session_id
    model_label := "fullmodel"
    input_variables := cfg.input_variables
    drop_variables := []
    kernels := cfg.kernels }

/-- Modelled from the spec: reduced-model resolution (lines 170-174): update
with the app params plus drop_variables and a drop label, validate, and read
out; the derived kernels mapping loses the dropped feature. -/
def resolveReduced (session_id : String) (cfg : ModelConfig) (feature : String) : RunParams :=
  { session_id := session_id
    model_label := "drop_" ++ feature
    input_variables := cfg.input_variables
    drop_variables := [feature]
    kernels := postDropKernels [feature] cfg.kernels }

/-- The design matrix: named weight columns over a shared timestamp axis (an
xarray DataArray in the source, accessed per weight label). -/
structure DesignMatrix where
  columns : List (String × List Int)
  timestamps : List Int
deriving DecidableEq

/-- The weight labels of the design matrix (design_matrix.weights.values). -/
def DesignMatrix.weights (dm : DesignMatrix) : List String :=
  dm.columns.map Prod.fst

/-- Models the deep copy at line 164; in a pure embedding a copy is the
identity. -/
def DesignMatrix.copy (dm : DesignMatrix) : DesignMatrix := dm

/-- Label selection on the weight axis: reindex the columns by the given
label list (line 179); always called with labels taken from the matrix. -/
def selColumns (cols : List (String × List Int)) : List String → List (String × List Int)
  | [] => []
  | w :: rest =>
    match lookupKey w cols with
    | some d => (w, d) :: selColumns cols rest
    | none => selColumns cols rest

/-- Models design_matrix_reduced.sel with a list of weight labels (line 179). -/
def DesignMatrix.sel (dm : DesignMatrix) (ws : List String) : DesignMatrix :=
  { columns := selColumns dm.columns ws, timestamps := dm.timestamps }

/-- The fit record; only failed_kernels drives the dropout control flow (line
168), the other per-session metrics are carried opaquely. -/
structure Fit where
  failed_kernels : List String
  is_good_behavior : Bool
  dprime : Int
deriving DecidableEq

/-- The group token of a weight name: the first component when the name is
split on the underscore delimiter (line 177). -/
def groupToken (w : String) : String :=
  String.mk (w.data.takeWhile (fun c => c != '_'))

/-- Line 177: the retained weights, every design-matrix weight whose group
token is a key of the reduced kernels mapping. -/
def filteredWeights (ks : List String) : List String → List String
  | [] => []
  | w :: rest =>
    if groupToken w ∈ ks then w :: filteredWeights ks rest
    else filteredWeights ks rest

/-- The pickled payload written per model variant together with its output
path (lines 136-151 and 186-201). -/
structure Artifact where
  file : String
  dm_weights : List String
  dm_data : List (List Int)
  dm_timestamps : List Int
  fit : Fit
  run_params : RunParams
deriving DecidableEq

/-- The state of process_session after the full model is built (lines
120-151): everything the dropout loop reads. -/
structure SessionCtx where
  session_id : String
  config : ModelConfig
  design_matrix : DesignMatrix
  fit : Fit
  run_params : RunParams
deriving DecidableEq

/-- Lines 186-201: the reduced-model save. The filename uses the reduced
model label while the run_params entry of the payload stores the full-model
run_params of the context, exactly as line 198 of the source passes
run_params rather than run_params_reduced. -/
def mkArtifact (ctx : SessionCtx) (run_params_reduced : RunParams)
    (design_matrix_reduced : DesignMatrix) : Artifact :=
  { file := ctx.session_id ++ "_" ++ run_params_reduced.model_label ++ "_inputs.pkl"
    dm_weights := design_matrix_reduced.weights
    dm_data := design_matrix_reduced.columns.map Prod.snd
    dm_timestamps := design_matrix_reduced.timestamps
    fit := ctx.fit
    run_params := ctx.run_params }

/-- Lines 163-201: one iteration of the dropout loop; none models the
continue branch for a failed kernel, where no artifact is written and no
reduced params are resolved. -/
def dropoutStep (ctx : SessionCtx) (feature : String) : Option Artifact :=
  let design_matrix_reduced := ctx.design_matrix.copy
  if feature ∈ ctx.fit.failed_kernels then none
  else
    let run_params_reduced := resolveReduced ctx.session_id ctx.config feature
    let filtered_weights :=
      filteredWeights (kernelKeys run_params_reduced.kernels) ctx.design_matrix.weights
    some (mkArtifact ctx run_params_reduced (design_matrix_reduced.sel filtered_weights))

/-- Lines 159-201: the dropout loop over the candidate features, collecting
the artifact written for each feature. -/
def processDropouts (ctx : SessionCtx) : List String → List (String × Artifact)
  | [] => []
  | feature :: rest =>
    match dropoutStep ctx feature with
    | some a => (feature, a) :: processDropouts ctx rest
    | none => processDropouts ctx rest

/-- Lines 163-201 with the fallible resolution made explicit: validate_params
must raise on an inconsistent reduced parameter set (spec 4.1), and the loop
body contains no handler for such an exception. -/
def dropoutStepWith (ctx : SessionCtx) (resolve : String → Except String RunParams)
    (feature : String) : Except String (Option Artifact) :=
  if feature ∈ ctx.fit.failed_kernels then Except.ok none
  else
    match resolve feature with
    | Except.error e => Except.error e
    | Except.ok run_params_reduced =>
      let filtered_weights :=
        filteredWeights (kernelKeys run_params_reduced.kernels) ctx.design_matrix.weights
      Except.ok (some (mkArtifact ctx run_params_reduced (ctx.design_matrix.copy.sel filtered_weights)))

/-- Lines 159-201 as a loop whose body may raise: an exception from one
iteration propagates out of process_session, so no later feature of that
session is processed; the first component collects the artifacts written
before the exception, the second records the escaped exception if any. -/
def dropoutLoopE (step : String → Except String (Option Artifact)) :
    List String → List Artifact × Option String
  | [] => ([], none)
  | f :: rest =>
    match step f with
    | Except.error e => ([], some e)
    | Except.ok none => dropoutLoopE step rest
    | Except.ok (some a) =>
      let r := dropoutLoopE step rest
      (a :: r.1, r.2)

/-- Lines 284-295 of main: session selection; none models the exit call at
line 287, which terminates the process before the directory-ensure step at
line 309 can run. The pipeline-mode and test-mode branches are orthogonal to
this selection and elided. -/
def mainSessions (requested : Option String) (filtered : List String) : Option (List String) :=
  match requested with
  | some sid => if sid ∈ filtered then some [sid] else none
  | none => some filtered

/-- The observable outcome of one invocation of main. -/
structure MainRun where
  processed : List String
  ensured_nonempty_dirs : Bool
deriving DecidableEq

/-- Modelled from the spec: utils.ensure_nonempty_results_dirs (line 309,
code not under src/) makes both output directories exist and be non-empty,
writing a placeholder when needed; ensured_nonempty_dirs records whether that
call was reached before the process terminated. -/
def mainRun (requested : Option String) (filtered : List String) : MainRun :=
  match mainSessions requested filtered with
  | none => { processed := [], ensured_nonempty_dirs := false }
  | some sids => { processed := sids, ensured_nonempty_dirs := true }

/-- Lines 297-304: the per-session loop of main; each session runs inside a
broad except handler, so a failing session is recorded with a false flag and
the loop continues with the remaining sessions. -/
def sessionLoop (proc : String → Except String Unit) : List String → List (String × Bool)
  | [] => []
  | s :: rest =>
    (s, match proc s with | Except.ok _ => true | Except.error _ => false) :: sessionLoop proc rest

/-- Line 156: the kernel function_call of each input variable, indexing the
kernels mapping as a Python dict does, so a missing key raises. -/
def kernelCalls (kernels : List (String × Kernel)) : List String → Except String (List String)
  | [] => Except.ok []
  | key :: rest =>
    match lookupKey key kernels with
    | none => Except.error ("KeyError: " ++ key)
    | some d => (kernelCalls kernels rest).map (fun calls => d.function_call :: calls)

/-- Lines 154-157: the auto-derived drop candidates, input_variables followed
by their kernel function_call identifiers. -/
def derivedFeatures (run_params : RunParams) : Except String (List String) :=
  (kernelCalls run_params.kernels run_params.input_variables).map
    (fun calls => run_params.input_variables ++ calls)

/-- Lines 154-158: the candidate features. The Python or-expression treats an
unset value and an empty list alike, both falsy, and the set conversion
dedups; the arbitrary set iteration order is modelled as first-occurrence
order. -/
def featuresToDrop (app_features_to_drop : Option (List String)) (run_params : RunParams) :
    Except String (List String) :=
  match app_features_to_drop with
  | none => (derivedFeatures run_params).map List.dedup
  | some [] => (derivedFeatures run_params).map List.dedup
  | some l => Except.ok l.dedup

section Overrides

variable {V : Type}

/-- The empty app_params dict built at line 265. -/
def emptyParams : String → Option V := fun _ => none

/-- One dict assignment, app_params of k set to v. -/
def setParam (d : String → Option V) (k : String) (v : V) : String → Option V :=
  fun x => if x = k then some v else d x

/-- Lines 266-275: assigning a list of key-value items to the dict in order. -/
def applyItems (d : String → Option V) : List (String × V) → String → Option V
  | [] => d
  | kv :: rest => applyItems (setParam d kv.1 kv.2) rest

/-- The last value bound to a key in a list of items, if any. -/
def lookupLast (k : String) : List (String × V) → Option V
  | [] => none
  | kv :: rest =>
    match lookupLast k rest with
    | some v => some v
    | none => if k = kv.1 then some kv.2 else none

/-- Lines 265-275: app_params built from the command-line field values and
then the override_params_json items, later assignments winning. -/
def buildAppParams (cli ov : List (String × V)) : String → Option V :=
  applyItems (applyItems emptyParams cli) ov

/-- The single merged map in which the override source wins on every
conflicting key. -/
def mergedParams (cli ov : List (String × V)) : String → Option V :=
  fun k =>
    match lookupLast k ov with
    | some v => some v
    | none => lookupLast k cli

end Overrides

/-- Lookup of the artifact recorded for a feature by the dropout loop. -/
def lookupArtifact (f : String) : List (String × Artifact) → Option Artifact
  | [] => none
  | ga :: rest => if f = ga.1 then some ga.2 else lookupArtifact f rest

/-- A session whose single feature owns every weight column: dropping it
leaves an empty retention set. -/
def c1Config : ModelConfig :=
  { input_variables := ["licks"], kernels := [("licks", { function_call := "licks_call" })] }

/-- Concrete session state for the empty-retention scenario. -/
def c1Ctx : SessionCtx :=
  { session_id := "S1"
    config := c1Config
    design_matrix := { columns := [("licks_0", [1, 2]), ("licks_1", [3, 4])], timestamps := [0, 1] }
    fit := { failed_kernels := [], is_good_behavior := true, dprime := 2 }
    run_params := resolveFull "S1" c1Config }

/-- A two-feature session used to compare the params stored in a reduced
artifact with the params resolved for the dropped feature. -/
def c2Config : ModelConfig :=
  { input_variables := ["licks", "running"]
    kernels := [("licks", { function_call := "licks_call" }),
                ("running", { function_call := "running_call" })] }

/-- Concrete session state for the stored-params scenario. -/
def c2Ctx : SessionCtx :=
  { session_id := "S1"
    config := c2Config
    design_matrix := { columns := [("licks_0", [1]), ("running_0", [2])], timestamps := [0] }
    fit := { failed_kernels := [], is_good_behavior := true, dprime := 1 }
    run_params := resolveFull "S1" c2Config }

/-- A two-feature session used for the feature-isolation scenario. -/
def c3Config : ModelConfig :=
  { input_variables := ["a", "b"]
    kernels := [("a", { function_call := "a_call" }), ("b", { function_call := "b_call" })] }

/-- Concrete session state for the feature-isolation scenario. -/
def c3Ctx : SessionCtx :=
  { session_id := "S3"
    config := c3Config
    design_matrix := { columns := [("a_0", [1]), ("b_0", [2])], timestamps := [0] }
    fit := { failed_kernels := [], is_good_behavior := true, dprime := 1 }
    run_params := resolveFull "S3" c3Config }

/-- A resolution that raises on feature a, as validate_params must when the
reduced parameter set for a is inconsistent (spec 4.1), and succeeds on every
other feature. -/
def c3Resolve : String → Except String RunParams :=
  fun f => if f = "a" then Except.error "validate_params" else Except.ok (resolveReduced "S3" c3Config f)

/-- A two-feature session whose reduced matrix for the first feature keeps
exactly the columns of the second. -/
def c5Config : ModelConfig :=
  { input_variables := ["licks", "running"]
    kernels := [("licks", { function_call := "licks_call" }),
                ("running", { function_call := "running_call" })] }

/-- Concrete session state for the retained-weights scenario. -/
def c5Ctx : SessionCtx :=
  { session_id := "S5"
    config := c5Config
    design_matrix := { columns := [("licks_0", [1]), ("licks_1", [2]), ("running_0", [3])], timestamps := [0] }
    fit := { failed_kernels := [], is_good_behavior := true, dprime := 1 }
    run_params := resolveFull "S5" c5Config }

/-- A session with one failed kernel next to one healthy feature. -/
def c6Config : ModelConfig :=
  { input_variables := ["bad", "good"]
    kernels := [("bad", { function_call := "bad_call" }), ("good", { function_call := "good_call" })] }

/-- Concrete session state for the failed-kernel-skip scenario. -/
def c6Ctx : SessionCtx :=
  { session_id := "S6"
    config := c6Config
    design_matrix := { columns := [("bad_0", [1]), ("good_0", [2])], timestamps := [0] }
    fit := { failed_kernels := ["bad"], is_good_behavior := true, dprime := 1 }
    run_params := resolveFull "S6" c6Config }

/-- Concrete resolved full-model params for the derived-candidates scenario. -/
def c7Rp : RunParams :=
  { session_id := "S7"
    model_label := "fullmodel"
    input_variables := ["licks", "running"]
    drop_variables := []
    kernels := [("licks", { function_call := "licks_call" }),
                ("running", { function_call := "running_call" })] }

/-- Concrete session state for the order-independence scenario. -/
def c9Ctx : SessionCtx :=
  { session_id := "S9"
    config := { input_variables := ["a", "b"]
                kernels := [("a", { function_call := "a_call" }), ("b", { function_call := "b_call" })] }
    design_matrix := { columns := [("a_0", [1]), ("b_0", [2])], timestamps := [0] }
    fit := { failed_kernels := [], is_good_behavior := true, dprime := 1 }
    run_params := resolveFull "S9" { input_variables := ["a", "b"]
                                     kernels := [("a", { function_call := "a_call" }),
                                                 ("b", { function_call := "b_call" })] } }

/-- A key present among the firsts of an association list is found by lookup. -/
theorem lookupKey_of_mem {β : Type} {cols : List (String × β)} {w : String}
    (h : w ∈ cols.map Prod.fst) : ∃ d, lookupKey w cols = some d := by
  induction cols with
  | nil => simp at h
  | cons c rest ih =>
    by_cases hc : c.1 = w
    · exact ⟨c.2, by simp [lookupKey, hc]⟩
    · have hw : w ∈ rest.map Prod.fst := by
        simp only [List.map_cons, List.mem_cons] at h
        rcases h with h | h
        · exact absurd h.symm hc
        · exact h
      rcases ih hw with ⟨d, hd⟩
      exact ⟨d, by simp [lookupKey, hc, hd]⟩

/-- Selecting labels that all occur in the matrix yields exactly those labels
as the new weight axis. -/
theorem selColumns_weights {cols : List (String × List Int)} {ws : List String}
    (h : ∀ w ∈ ws, w ∈ cols.map Prod.fst) :
    (selColumns cols ws).map Prod.fst = ws := by
  induction ws with
  | nil => rfl
  | cons w rest ih =>
    rcases lookupKey_of_mem (h w (by simp)) with ⟨d, hd⟩
    have hrest : ∀ x ∈ rest, x ∈ cols.map Prod.fst := fun x hx => h x (by simp [hx])
    simp [selColumns, hd, ih hrest]

/-- Membership in the retained weight list. -/
theorem mem_filteredWeights {ks ws : List String} {w : String} :
    w ∈ filteredWeights ks ws ↔ w ∈ ws ∧ groupToken w ∈ ks := by
  induction ws with
  | nil => simp [filteredWeights]
  | cons x rest ih =>
    by_cases hx : groupToken x ∈ ks
    · simp only [filteredWeights, if_pos hx, List.mem_cons, ih]
      constructor
      · rintro (rfl | ⟨hmem, hk⟩)
        · exact ⟨Or.inl rfl, hx⟩
        · exact ⟨Or.inr hmem, hk⟩
      · rintro ⟨rfl | hmem, hk⟩
        · exact Or.inl rfl
        · exact Or.inr ⟨hmem, hk⟩
    · simp only [filteredWeights, if_neg hx, List.mem_cons, ih]
      constructor
      · rintro ⟨hmem, hk⟩
        exact ⟨Or.inr hmem, hk⟩
      · rintro ⟨rfl | hmem, hk⟩
        · exact absurd hk hx
        · exact ⟨hmem, hk⟩

/-- Every post-drop kernel key comes from the original mapping. -/
theorem mem_kernelKeys_of_postDrop {kernels : List (String × Kernel)}
    {dropped : List String} {x : String}
    (h : x ∈ kernelKeys (postDropKernels dropped kernels)) : x ∈ kernelKeys kernels := by
  induction kernels with
  | nil => simp [postDropKernels, kernelKeys] at h
  | cons kv rest ih =>
    by_cases hkv : kv.1 ∈ dropped ∨ kv.2.function_call ∈ dropped
    · simp only [postDropKernels, if_pos hkv] at h
      exact List.mem_cons_of_mem _ (ih h)
    · simp only [postDropKernels, if_neg hkv, kernelKeys, List.map_cons, List.mem_cons] at h
      rcases h with rfl | h
      · exact List.mem_cons_self _ _
      · exact List.mem_cons_of_mem _ (ih h)

/-- Under unique dict keys, the key of a dropped kernel entry disappears from
the post-drop mapping, whether the drop named the kernel by its feature key
or by its function_call identifier. -/
theorem owner_not_mem_postDrop {dropped : List String} {kv : String × Kernel}
    (hdrop : kv.1 ∈ dropped ∨ kv.2.function_call ∈ dropped) :
    ∀ kernels : List (String × Kernel), kv ∈ kernels → (kernelKeys kernels).Nodup →
      kv.1 ∉ kernelKeys (postDropKernels dropped kernels) := by
  intro kernels
  induction kernels with
  | nil => intro hmem _; simp at hmem
  | cons hd rest ih =>
    intro hmem hnodup
    have hcons := List.nodup_cons.mp hnodup
    have hhd : hd.1 ∉ kernelKeys rest := hcons.1
    have hnodup2 : (kernelKeys rest).Nodup := hcons.2
    rcases List.mem_cons.mp hmem with rfl | hmem2
    · simp only [postDropKernels, if_pos hdrop]
      intro hx
      exact hhd (mem_kernelKeys_of_postDrop hx)
    · by_cases hkv : hd.1 ∈ dropped ∨ hd.2.function_call ∈ dropped
      · simp only [postDropKernels, if_pos hkv]
        exact ih hmem2 hnodup2
      · simp only [postDropKernels, if_neg hkv, kernelKeys, List.map_cons, List.mem_cons]
        intro hx
        rcases hx with heq | hx
        · exact hhd (heq ▸ List.mem_map_of_mem Prod.fst hmem2)
        · exact ih hmem2 hnodup2 hx

/-- The dropout loop body for a feature whose kernel did not fail. -/
theorem dropoutStep_of_not_failed {ctx : SessionCtx} {f : String}
    (h : f ∉ ctx.fit.failed_kernels) :
    dropoutStep ctx f =
      some (mkArtifact ctx (resolveReduced ctx.session_id ctx.config f)
        (ctx.design_matrix.copy.sel
          (filteredWeights (kernelKeys (resolveReduced ctx.session_id ctx.config f).kernels)
            ctx.design_matrix.weights))) := by
  simp [dropoutStep, h]

/-- The dropout loop body skips a feature whose kernel failed. -/
theorem dropoutStep_of_failed {ctx : SessionCtx} {f : String}
    (h : f ∈ ctx.fit.failed_kernels) : dropoutStep ctx f = none := by
  simp [dropoutStep, h]

/-- The loop is the filterMap of its body over the feature list. -/
theorem processDropouts_eq_filterMap (ctx : SessionCtx) (l : List String) :
    processDropouts ctx l = l.filterMap (fun f => (dropoutStep ctx f).map (fun a => (f, a))) := by
  induction l with
  | nil => rfl
  | cons f rest ih =>
    cases hf : dropoutStep ctx f with
    | some b => simp [processDropouts, hf, List.filterMap_cons, ih]
    | none => simp [processDropouts, hf, List.filterMap_cons, ih]

/-- Characterisation of the per-feature artifacts collected by the loop. -/
theorem mem_processDropouts {ctx : SessionCtx} {l : List String} {g : String} {a : Artifact} :
    (g, a) ∈ processDropouts ctx l ↔ g ∈ l ∧ dropoutStep ctx g = some a := by
  rw [processDropouts_eq_filterMap]
  simp only [List.mem_filterMap, Option.map_eq_some']
  constructor
  · rintro ⟨f, hf, b, hb, heq⟩
    cases heq
    exact ⟨hf, hb⟩
  · rintro ⟨hg, hstep⟩
    exact ⟨g, hg, a, hstep, rfl⟩

/-- A feature whose step writes nothing has no recorded artifact. -/
theorem lookupArtifact_eq_none {ctx : SessionCtx} {f : String} {l : List String}
    (h : dropoutStep ctx f = none) :
    lookupArtifact f (processDropouts ctx l) = none := by
  induction l with
  | nil => rfl
  | cons g rest ih =>
    cases hg : dropoutStep ctx g with
    | some b =>
      by_cases hfg : f = g
      · subst hfg; rw [h] at hg; exact absurd hg (by simp)
      · simp [processDropouts, hg, lookupArtifact, hfg, ih]
    | none => simp [processDropouts, hg, ih]

/-- The artifact recorded for a listed feature is the value of the loop body
at that feature alone. -/
theorem lookupArtifact_processDropouts {ctx : SessionCtx} {f : String} {l : List String}
    (h : f ∈ l) :
    lookupArtifact f (processDropouts ctx l) = dropoutStep ctx f := by
  induction l with
  | nil => simp at h
  | cons g rest ih =>
    by_cases hfg : f = g
    · subst hfg
      cases hf : dropoutStep ctx f with
      | some b => simp [processDropouts, hf, lookupArtifact]
      | none => simp [processDropouts, hf, lookupArtifact_eq_none hf]
    · have hrest : f ∈ rest := by
        rcases List.mem_cons.mp h with h | h
        · exact absurd h hfg
        · exact h
      cases hg : dropoutStep ctx g with
      | some b => simp [processDropouts, hg, lookupArtifact, hfg, ih hrest]
      | none => simp [processDropouts, hg, ih hrest]

/-- Every queued session gets an entry in the batch loop, whatever the
outcomes of the sessions before it. -/
theorem sessionLoop_fst (proc : String → Except String Unit) (l : List String) :
    (sessionLoop proc l).map Prod.fst = l := by
  induction l with
  | nil => rfl
  | cons s rest ih => simp [sessionLoop, ih]

/-- Sequential dict assignment realises last-binding-wins lookup. -/
theorem applyItems_apply {V : Type} (d : String → Option V) (items : List (String × V)) (k : String) :
    applyItems d items k = Option.orElse (lookupLast k items) (fun _ => d k) := by
  induction items generalizing d with
  | nil => rfl
  | cons kv rest ih =>
    simp only [applyItems, lookupLast, ih]
    cases lookupLast k rest with
    | some v => rfl
    | none =>
      by_cases hk : k = kv.1
      · simp [setParam, hk, Option.orElse]
      · simp [setParam, hk, Option.orElse]

/-- A key absent from the items is never bound. -/
theorem lookupLast_eq_none {V : Type} {items : List (String × V)} {k : String}
    (h : k ∉ items.map Prod.fst) : lookupLast k items = none := by
  induction items with
  | nil => rfl
  | cons kv rest ih =>
    have hk : k ≠ kv.1 := by
      intro hkk
      exact h (by simp [hkk])
    have hrest : k ∉ rest.map Prod.fst := fun hr => h (by simp [hr])
    simp [lookupLast, ih hrest, hk]

/-- A bound key occurs among the item keys. -/
theorem mem_of_lookupLast_isSome {V : Type} {items : List (String × V)} {k : String}
    (h : (lookupLast k items).isSome = true) : k ∈ items.map Prod.fst := by
  induction items with
  | nil => simp [lookupLast] at h
  | cons kv rest ih =>
    cases hr : lookupLast k rest with
    | some w => exact List.mem_cons_of_mem _ (ih (by simp [hr]))
    | none =>
      simp only [lookupLast, hr] at h
      by_cases hk : k = kv.1
      · simp [hk]
      · simp [hk] at h

/-- Structure of the candidate auto-derivation when every input variable is
resolvable in the kernels mapping. -/
theorem kernelCalls_ok {kernels : List (String × Kernel)} {l : List String}
    (hk : ∀ k ∈ l, ∃ d, lookupKey k kernels = some d) :
    ∃ calls, kernelCalls kernels l = Except.ok calls ∧
      ∀ x, (x ∈ calls ↔ ∃ k, k ∈ l ∧ ∃ d, lookupKey k kernels = some d ∧ d.function_call = x) := by
  induction l with
  | nil =>
    refine ⟨[], rfl, fun x => ?_⟩
    simp
  | cons key rest ih =>
    rcases hk key (by simp) with ⟨d, hd⟩
    rcases ih (fun k hkk => hk k (by simp [hkk])) with ⟨calls, hcalls, hmem⟩
    refine ⟨d.function_call :: calls, ?_, fun x => ?_⟩
    · simp [kernelCalls, hd, hcalls, Except.map]
    · simp only [List.mem_cons, hmem]
      constructor
      · rintro (rfl | ⟨k, hkmem, d2, hd2, rfl⟩)
        · exact ⟨key, Or.inl rfl, d, hd, rfl⟩
        · exact ⟨k, Or.inr hkmem, d2, hd2, rfl⟩
      · rintro ⟨k, rfl | hkmem, d2, hd2, rfl⟩
        · rw [hd] at hd2
          cases hd2
          exact Or.inl rfl
        · exact Or.inr ⟨k, hkmem, d2, hd2, rfl⟩

/-- C1: the claim fails on the code. At a session where dropping the only
feature leaves no matching weight column, the retained set is empty, yet the
dropout stage does not raise: it still produces a reduced artifact, and that
artifact has zero weight columns. -/
theorem c1_counterexample :
    filteredWeights (kernelKeys (resolveReduced "S1" c1Config "licks").kernels)
      c1Ctx.design_matrix.weights = [] ∧
    (dropoutStep c1Ctx "licks").isSome = true ∧
    (dropoutStep c1Ctx "licks").map Artifact.dm_weights = some [] := by
  refine ⟨rfl, rfl, rfl⟩

/-- C1 amended: for a dropout feature not among the failed kernels whose
computed retention set is empty, the stage does not fail: it writes the
reduced artifact, and the weight axis of that artifact is empty. -/
theorem c1_amended (ctx : SessionCtx) (f : String)
    (hfail : f ∉ ctx.fit.failed_kernels)
    (hempty : filteredWeights (kernelKeys (resolveReduced ctx.session_id ctx.config f).kernels)
      ctx.design_matrix.weights = []) :
    (dropoutStep ctx f).isSome = true ∧
    (dropoutStep ctx f).map Artifact.dm_weights = some [] := by
  rw [dropoutStep_of_not_failed hfail, hempty]
  exact ⟨rfl, rfl⟩

/-- Witness for the amended C1 at the concrete empty-retention session. -/
theorem c1_amended_witness :
    (dropoutStep c1Ctx "licks").isSome = true ∧
    (dropoutStep c1Ctx "licks").map Artifact.dm_weights = some [] :=
  c1_amended c1Ctx "licks" (by decide) (by decide)

/-- C2: the claim is right and the code is wrong. At a concrete session the
artifact written when dropping licks stores the full-model run_params, whose
model_label is fullmodel, and not the reduced run_params resolved for licks,
whose model_label is drop_licks: line 198 passes run_params where
run_params_reduced was resolved and used for the filename just above. -/
theorem c2_full_params_written :
    (dropoutStep c2Ctx "licks").map Artifact.run_params = some (resolveFull "S1" c2Config) ∧
    (dropoutStep c2Ctx "licks").map Artifact.file = some "S1_drop_licks_inputs.pkl" ∧
    (resolveReduced "S1" c2Config "licks").model_label = "drop_licks" ∧
    (dropoutStep c2Ctx "licks").map Artifact.run_params ≠
      some (resolveReduced "S1" c2Config "licks") := by
  refine ⟨rfl, rfl, rfl, by decide⟩

/-- C3: the claim fails on the code. With resolution raising on feature a and
feature b perfectly processable, the loop stops at a: the session writes no
artifact at all, in particular none for b, so the remaining dropout features
are not processed. -/
theorem c3_counterexample :
    (dropoutLoopE (dropoutStepWith c3Ctx c3Resolve) ["a", "b"]).1 = [] ∧
    (dropoutLoopE (dropoutStepWith c3Ctx c3Resolve) ["a", "b"]).2 = some "validate_params" ∧
    (dropoutStepWith c3Ctx c3Resolve "b").map Option.isSome = Except.ok true := by
  refine ⟨rfl, rfl, rfl⟩

/-- C3 amended: an exception raised while processing one dropout feature
propagates out of the loop, so from that feature on nothing further is
written for the session; isolation holds only at session granularity, where
the batch loop of main records the failure and still runs every remaining
session. -/
theorem c3_amended (step : String → Except String (Option Artifact))
    (f e : String) (rest : List String) (hf : step f = Except.error e)
    (proc : String → Except String Unit) (s : String) (sessions : List String) :
    dropoutLoopE step (f :: rest) = ([], some e) ∧
    (sessionLoop proc (s :: sessions)).map Prod.fst = s :: sessions := by
  constructor
  · simp [dropoutLoopE, hf]
  · exact sessionLoop_fst proc (s :: sessions)

/-- Witness for the amended C3 at a concrete failing step and batch. -/
theorem c3_amended_witness :
    dropoutLoopE (fun _ => Except.error "boom") ["x", "y"] = ([], some "boom") ∧
    (sessionLoop (fun _ => Except.ok ()) ["s1", "s2"]).map Prod.fst = ["s1", "s2"] :=
  c3_amended (fun _ => Except.error "boom") "x" "boom" ["y"] rfl (fun _ => Except.ok ()) "s1" ["s2"]

/-- C4: the claim fails on the code. When the requested session is absent
from the filtered table, main exits at line 287, before the ensure step at
line 309: the run processes nothing and never guarantees that the output
directories exist and are non-empty. -/
theorem c4_counterexample :
    mainRun (some "S1") ["S2"] = { processed := [], ensured_nonempty_dirs := false } := by
  decide

/-- C4 amended: the non-empty-directory guarantee holds exactly for runs that
reach the end of the session loop — no explicitly requested session, or a
requested session present in the filtered table — and not for the early-exit
path of a requested session missing from the table. -/
theorem c4_amended (requested : Option String) (filtered : List String)
    (h : requested = none ∨ ∃ sid, requested = some sid ∧ sid ∈ filtered) :
    (mainRun requested filtered).ensured_nonempty_dirs = true := by
  rcases h with rfl | ⟨sid, rfl, hmem⟩
  · rfl
  · simp [mainRun, mainSessions, hmem]

/-- Witness for the amended C4 at a run with no requested session. -/
theorem c4_amended_witness :
    (mainRun none ["S2"]).ensured_nonempty_dirs = true :=
  c4_amended none ["S2"] (Or.inl rfl)

/-- C5: for every dropout feature not among the failed kernels, given that
the kernel keys are unique (a Python dict invariant) and that some kernel of
the full model is named by the feature — by its semantic key or by its
function_call identifier, the two naming schemes of the candidate list — and
owns at least one weight column (spec 4.2 step 1: a non-failed kernel
contributed columns), the reduced artifact is written and its weight set is
exactly the set of full weight columns whose group token is a key of the
post-drop kernel mapping; that set is a strict subset of the full weight set,
and every retained group token is a post-drop kernel key. -/
theorem c5_reduced_weights (ctx : SessionCtx) (f : String)
    (hfail : f ∉ ctx.fit.failed_kernels)
    (hnodup : (kernelKeys ctx.config.kernels).Nodup)
    (hown : ∃ kv, kv ∈ ctx.config.kernels ∧ (kv.1 = f ∨ kv.2.function_call = f) ∧
      ∃ w, w ∈ ctx.design_matrix.weights ∧ groupToken w = kv.1) :
    (dropoutStep ctx f).map Artifact.dm_weights =
      some (filteredWeights (kernelKeys (resolveReduced ctx.session_id ctx.config f).kernels)
        ctx.design_matrix.weights) ∧
    (∀ w, w ∈ filteredWeights (kernelKeys (resolveReduced ctx.session_id ctx.config f).kernels)
        ctx.design_matrix.weights ↔
      w ∈ ctx.design_matrix.weights ∧
        groupToken w ∈ kernelKeys (resolveReduced ctx.session_id ctx.config f).kernels) ∧
    (∃ w, w ∈ ctx.design_matrix.weights ∧
      w ∉ filteredWeights (kernelKeys (resolveReduced ctx.session_id ctx.config f).kernels)
        ctx.design_matrix.weights) ∧
    (∀ w ∈ filteredWeights (kernelKeys (resolveReduced ctx.session_id ctx.config f).kernels)
        ctx.design_matrix.weights,
      groupToken w ∈ kernelKeys (resolveReduced ctx.session_id ctx.config f).kernels) := by
  refine ⟨?_, fun w => mem_filteredWeights, ?_, fun w hw => (mem_filteredWeights.mp hw).2⟩
  · rw [dropoutStep_of_not_failed hfail]
    have hsub : ∀ w ∈ filteredWeights
        (kernelKeys (resolveReduced ctx.session_id ctx.config f).kernels)
        ctx.design_matrix.weights, w ∈ ctx.design_matrix.columns.map Prod.fst :=
      fun w hw => (mem_filteredWeights.mp hw).1
    simp only [mkArtifact, DesignMatrix.sel, DesignMatrix.weights, DesignMatrix.copy,
      Option.map_some', Option.some.injEq]
    exact selColumns_weights hsub
  · rcases hown with ⟨kv, hkvmem, hkvdrop, w0, hw0, htok⟩
    refine ⟨w0, hw0, fun hcontra => ?_⟩
    have htk := (mem_filteredWeights.mp hcontra).2
    rw [htok] at htk
    have hdropm : kv.1 ∈ [f] ∨ kv.2.function_call ∈ [f] := by
      rcases hkvdrop with h | h
      · exact Or.inl (by simp [h])
      · exact Or.inr (by simp [h])
    exact owner_not_mem_postDrop hdropm ctx.config.kernels hkvmem hnodup htk

/-- Witness for C5 at the concrete two-feature session, dropping the licks
kernel by its function_call identifier. -/
theorem c5_reduced_weights_witness :
    ("licks_call" ∉ c5Ctx.fit.failed_kernels) ∧
    (dropoutStep c5Ctx "licks_call").map Artifact.dm_weights =
      some (filteredWeights (kernelKeys (resolveReduced "S5" c5Config "licks_call").kernels)
        c5Ctx.design_matrix.weights) ∧
    (∃ w, w ∈ c5Ctx.design_matrix.weights ∧
      w ∉ filteredWeights (kernelKeys (resolveReduced "S5" c5Config "licks_call").kernels)
        c5Ctx.design_matrix.weights) := by
  have h := c5_reduced_weights c5Ctx "licks_call" (by decide) (by decide)
    ⟨("licks", { function_call := "licks_call" }), by decide, Or.inr rfl,
     "licks_0", by decide, by decide⟩
  exact ⟨by decide, h.1, h.2.2.1⟩

/-- C6: a dropout candidate among the failed kernels is skipped entirely: its
loop body resolves nothing and writes nothing, no artifact for it appears in
the loop output, and every non-failed candidate in the list still gets its
artifact. -/
theorem c6_failed_kernel_skip (ctx : SessionCtx) (features : List String) (f : String)
    (hfail : f ∈ ctx.fit.failed_kernels) :
    dropoutStep ctx f = none ∧
    (∀ a, (f, a) ∉ processDropouts ctx features) ∧
    (∀ g, g ∈ features → g ∉ ctx.fit.failed_kernels →
      ∃ a, (g, a) ∈ processDropouts ctx features ∧ dropoutStep ctx g = some a) := by
  refine ⟨dropoutStep_of_failed hfail, ?_, ?_⟩
  · intro a ha
    have hstep := (mem_processDropouts.mp ha).2
    rw [dropoutStep_of_failed hfail] at hstep
    exact Option.noConfusion hstep
  · intro g hg hgf
    exact ⟨mkArtifact ctx (resolveReduced ctx.session_id ctx.config g)
      (ctx.design_matrix.copy.sel
        (filteredWeights (kernelKeys (resolveReduced ctx.session_id ctx.config g).kernels)
          ctx.design_matrix.weights)),
      mem_processDropouts.mpr ⟨hg, dropoutStep_of_not_failed hgf⟩,
      dropoutStep_of_not_failed hgf⟩

/-- Witness for C6 at a session with one failed and one healthy feature. -/
theorem c6_failed_kernel_skip_witness :
    dropoutStep c6Ctx "bad" = none ∧
    (∀ a, ("bad", a) ∉ processDropouts c6Ctx ["bad", "good"]) :=
  ⟨(c6_failed_kernel_skip c6Ctx ["bad", "good"] "bad" (by decide)).1,
   (c6_failed_kernel_skip c6Ctx ["bad", "good"] "bad" (by decide)).2.1⟩

/-- C7: with features_to_drop unset and every input variable resolvable in
the kernels mapping, the derived candidate list is duplicate-free and its
members are exactly the input variable names together with the kernel
function_call identifiers of the input variables. -/
theorem c7_derived_features (rp : RunParams)
    (hk : ∀ k ∈ rp.input_variables, ∃ d, lookupKey k rp.kernels = some d) :
    ∃ fs, featuresToDrop none rp = Except.ok fs ∧ fs.Nodup ∧
      ∀ x, (x ∈ fs ↔ x ∈ rp.input_variables ∨
        ∃ k, k ∈ rp.input_variables ∧ ∃ d, lookupKey k rp.kernels = some d ∧
          d.function_call = x) := by
  rcases kernelCalls_ok hk with ⟨calls, hcalls, hmem⟩
  refine ⟨(rp.input_variables ++ calls).dedup, ?_, List.nodup_dedup _, fun x => ?_⟩
  · simp [featuresToDrop, derivedFeatures, hcalls, Except.map]
  · rw [List.mem_dedup, List.mem_append, hmem x]

/-- Witness for C7 at the concrete two-feature parameter set. -/
theorem c7_derived_features_witness :
    ∃ fs, featuresToDrop none c7Rp = Except.ok fs ∧ fs.Nodup ∧
      ∀ x, (x ∈ fs ↔ x ∈ c7Rp.input_variables ∨
        ∃ k, k ∈ c7Rp.input_variables ∧ ∃ d, lookupKey k c7Rp.kernels = some d ∧
          d.function_call = x) := by
  refine c7_derived_features c7Rp ?_
  intro k hk
  have hk2 : k = "licks" ∨ k = "running" := by simpa [c7Rp] using hk
  rcases hk2 with rfl | rfl
  · exact ⟨{ function_call := "licks_call" }, rfl⟩
  · exact ⟨{ function_call := "running_call" }, rfl⟩

/-- C8: building app_params by applying the command-line items and then the
override items equals, on every key and for arbitrary overlapping sources,
the single merged map where the override source wins on every conflicting
key; when the key sets are disjoint the two sources commute; and a key bound
by the override items gets its override value whatever the command-line items
said about it. -/
theorem c8_override_merge {V : Type} (cli ov : List (String × V)) :
    (∀ k, buildAppParams cli ov k = mergedParams cli ov k) ∧
    ((∀ k, k ∈ cli.map Prod.fst → k ∉ ov.map Prod.fst) →
      ∀ k, applyItems (applyItems emptyParams ov) cli k =
        applyItems (applyItems emptyParams cli) ov k) ∧
    (∀ k v, lookupLast k ov = some v → buildAppParams cli ov k = some v) := by
  refine ⟨?_, ?_, ?_⟩
  · intro k
    simp only [buildAppParams, applyItems_apply, mergedParams, emptyParams]
    cases lookupLast k ov with
    | some v => rfl
    | none =>
      cases lookupLast k cli with
      | some w => rfl
      | none => rfl
  · intro hdisj k
    simp only [applyItems_apply, emptyParams]
    cases hc : lookupLast k cli with
    | some v =>
      have hnotov : k ∉ ov.map Prod.fst :=
        hdisj k (mem_of_lookupLast_isSome (by simp [hc]))
      rw [lookupLast_eq_none hnotov]
      rfl
    | none =>
      cases ho : lookupLast k ov with
      | some w => rfl
      | none => rfl
  · intro k v hv
    simp only [buildAppParams, applyItems_apply, hv]
    rfl

/-- Witness for C8: the sources share the key k, bound to 5 by the
command-line items and to 2 by the override items; the override value wins
and agrees with the merged map, while a disjoint pair commutes. -/
theorem c8_override_merge_witness :
    lookupLast "k" [("a", (1 : Nat)), ("k", 5)] = some 5 ∧
    lookupLast "k" [("k", (2 : Nat)), ("b", 3)] = some 2 ∧
    buildAppParams [("a", (1 : Nat)), ("k", 5)] [("k", 2), ("b", 3)] "k" = some 2 ∧
    buildAppParams [("a", (1 : Nat)), ("k", 5)] [("k", 2), ("b", 3)] "k" =
      mergedParams [("a", 1), ("k", 5)] [("k", 2), ("b", 3)] "k" ∧
    applyItems (applyItems emptyParams [("b", (2 : Nat))]) [("a", 1)] "a" =
      applyItems (applyItems emptyParams [("a", (1 : Nat))]) [("b", 2)] "a" := by
  refine ⟨rfl, rfl, ?_, ?_, ?_⟩
  · exact (c8_override_merge [("a", 1), ("k", 5)] [("k", 2), ("b", 3)]).2.2 "k" 2 rfl
  · exact (c8_override_merge [("a", 1), ("k", 5)] [("k", 2), ("b", 3)]).1 "k"
  · exact (c8_override_merge [("a", 1)] [("b", 2)]).2.1
      (by intro k hk; simp at hk; subst hk; decide) "a"

/-- C9: the artifact produced for a feature is a function of the session
state and that feature alone: its recorded value is the same in any candidate
list containing the feature, permuting the candidate list permutes the output
without changing any entry, and every recorded artifact is the value of the
per-feature body. -/
theorem c9_order_independence (ctx : SessionCtx) (l₁ l₂ : List String) (f : String)
    (h₁ : f ∈ l₁) (h₂ : f ∈ l₂) :
    lookupArtifact f (processDropouts ctx l₁) = dropoutStep ctx f ∧
    lookupArtifact f (processDropouts ctx l₁) = lookupArtifact f (processDropouts ctx l₂) ∧
    (l₁.Perm l₂ → (processDropouts ctx l₁).Perm (processDropouts ctx l₂)) ∧
    (∀ g a, (g, a) ∈ processDropouts ctx l₁ → dropoutStep ctx g = some a) := by
  refine ⟨lookupArtifact_processDropouts h₁, ?_, ?_, ?_⟩
  · rw [lookupArtifact_processDropouts h₁, lookupArtifact_processDropouts h₂]
  · intro hperm
    rw [processDropouts_eq_filterMap, processDropouts_eq_filterMap]
    exact hperm.filterMap _
  · intro g a hga
    exact (mem_processDropouts.mp hga).2

/-- Witness for C9 at a concrete two-feature session and swapped lists. -/
theorem c9_order_independence_witness :
    lookupArtifact "a" (processDropouts c9Ctx ["a", "b"]) = dropoutStep c9Ctx "a" ∧
    lookupArtifact "a" (processDropouts c9Ctx ["a", "b"]) =
      lookupArtifact "a" (processDropouts c9Ctx ["b", "a"]) :=
  ⟨(c9_order_independence c9Ctx ["a", "b"] ["b", "a"] "a" (by decide) (by decide)).1,
   (c9_order_independence c9Ctx ["a", "b"] ["b", "a"] "a" (by decide) (by decide)).2.1⟩

/-- C10: an explicitly supplied empty features_to_drop list is falsy in the
Python or-expression, so the candidate list is auto-derived exactly as in the
unset case rather than yielding zero dropout variants. -/
theorem c10_empty_features_to_drop (rp : RunParams) :
    featuresToDrop (some []) rp = featuresToDrop none rp ∧
    featuresToDrop (some []) rp = (derivedFeatures rp).map List.dedup :=
  ⟨rfl, rfl⟩

end RunCapsule
